import Mathlib

/-!
Verification of the authorization-and-cascade-resolution engine of a CRM
backend.  The definitions below are a shallow embedding of the permission
middleware (`src/middleware/permissions.js`) and of the delete handlers of
the companies, customers and leads controllers.  Database tables are lists
of rows; SQL `UPDATE`/`SELECT` statements become list operations; the
`BEGIN`/`COMMIT`/`ROLLBACK` transaction protocol becomes `runTxn`, which is
parameterised by a failure flag per in-transaction statement.
-/

namespace DigiCrm

/-- Row of the `companies` table (columns used by the handlers). -/
structure Company where
  id : Nat
  name : String
  industry : String
  createdBy : Nat
  deletedAt : Option Nat
deriving DecidableEq, Repr

/-- Row of the `customers` table. -/
structure Customer where
  id : Nat
  name : String
  email : String
  companyId : Nat
  createdBy : Nat
  deletedAt : Option Nat
deriving DecidableEq, Repr

/-- Row of the `leads` table. -/
structure Lead where
  id : Nat
  dealName : String
  amount : Nat
  stage : String
  customerId : Nat
  createdBy : Nat
  deletedAt : Option Nat
deriving DecidableEq, Repr

/-- Row of the `lead_activities` audit table.  No delete handler ever
writes to this table, which is what claim C10 is about. -/
structure LeadActivity where
  id : Nat
  leadId : Nat
  activityType : String
deriving DecidableEq, Repr

/-- Database state: the four tables the deletion engine touches. -/
structure DB where
  companies : List Company
  customers : List Customer
  leads : List Lead
  leadActivities : List LeadActivity
deriving DecidableEq, Repr

/-- Authenticated actor context (`req.user`): id, role name, and resolved
permission object mapping a resource name to its granted actions. -/
structure Actor where
  id : Nat
  role : String
  permissions : List (String × List String)
deriving DecidableEq, Repr

/-- Error kinds of `AppError` as used by the handlers. -/
inductive ErrKind where
  | not_found
  | authorization
  | validation
deriving DecidableEq, Repr

/-- An `AppError` without additional payload. -/
structure AppErr where
  message : String
  kind : ErrKind
deriving DecidableEq, Repr

/-- Lookup of `req.user.permissions[resource]`, `[]` when the key is absent.
On every request that reaches a controller the route middleware has already
ensured the key is present (or the actor is a super admin), so the default
is never observable there. -/
def permActions (user : Actor) (resource : String) : List String :=
  (user.permissions.lookup resource).getD []

/-- The middleware test `req.user.permissions[resource] &&
req.user.permissions[resource].includes(action)`. -/
def hasPermission (user : Actor) (resource action : String) : Bool :=
  match user.permissions.lookup resource with
  | some actions => actions.contains action
  | none => false

/-- The `checkPermission(resource, action)` route middleware: super admins
always pass; anyone else passes exactly when the resolved permission set
grants the action, and is otherwise rejected with an authorization error
naming the action and the resource. -/
def checkPermission (resource action : String) (user : Actor) :
    Except AppErr Unit :=
  if user.role == "super_admin" then
    Except.ok ()
  else if hasPermission user resource action then
    Except.ok ()
  else
    Except.error
      { message := s!"You don\x27t have permission to {action} {resource}",
        kind := ErrKind.authorization }

/-- One transaction: a list of statements, each paired with the flag saying
whether the database fails it.  Statements run in order; the first failure
aborts and rolls back the whole transaction (`none`), otherwise the final
state is committed. -/
def runTxn : List ((DB → DB) × Bool) → DB → Option DB
  | [], db => some db
  | (step, failed) :: rest, db =>
    if failed then none else runTxn rest (step db)

/-- The existence pre-check of `deleteCompany`:
`SELECT * FROM companies WHERE id = $1 AND deleted_at IS NULL`. -/
def companyFind (db : DB) (id : Nat) : Option Company :=
  db.companies.find? (fun c => c.id == id && c.deletedAt.isNone)

/-- Active customers of a company:
`... FROM customers WHERE company_id = $1 AND deleted_at IS NULL`. -/
def activeCustomersOf (db : DB) (id : Nat) : List Customer :=
  db.customers.filter (fun c => c.companyId == id && c.deletedAt.isNone)

/-- The in-handler permission check of `deleteCompany`: denied when the
actor is not a super admin, does not own the row, and lacks the
`companies`/`delete` grant. -/
def companyDeleteDenied (user : Actor) (company : Company) : Bool :=
  user.role != "super_admin" && company.createdBy != user.id
    && !((permActions user "companies").contains "delete")

/-- The in-handler permission check of `getCompanyById`: denied when the
actor is not a super admin, is not the creator of the row, and lacks the
`companies`/`read` grant. -/
def companyReadDenied (user : Actor) (createdBy : Nat) : Bool :=
  user.role != "super_admin" && createdBy != user.id
    && !((permActions user "companies").contains "read")

/-- Transaction statement: `UPDATE customers SET company_id = $1 WHERE
company_id = $2 AND deleted_at IS NULL` (reassignment). -/
def reassignCompanyCustomers (target id : Nat) (db : DB) : DB :=
  { db with
    customers := db.customers.map fun c =>
      if c.companyId == id && c.deletedAt.isNone then
        { c with companyId := target }
      else c }

/-- Transaction statement: `UPDATE companies SET deleted_at = NOW() WHERE
id = $1`. -/
def softDeleteCompanyRow (id now : Nat) (db : DB) : DB :=
  { db with
    companies := db.companies.map fun c =>
      if c.id == id then { c with deletedAt := some now } else c }

/-- Transaction statement of the forced cascade: `UPDATE leads SET
deleted_at = NOW() WHERE customer_id IN (SELECT id FROM customers WHERE
company_id = $1 AND deleted_at IS NULL)`.  Note that, unlike the customer
cascade, the statement has no `deleted_at IS NULL` filter on the leads
themselves. -/
def softDeleteCompanyLeads (id now : Nat) (db : DB) : DB :=
  { db with
    leads := db.leads.map fun l =>
      if db.customers.any
          (fun c => c.id == l.customerId && c.companyId == id
            && c.deletedAt.isNone) then
        { l with deletedAt := some now }
      else l }

/-- Transaction statement: `UPDATE customers SET deleted_at = NOW() WHERE
company_id = $1 AND deleted_at IS NULL`. -/
def softDeleteCompanyCustomers (id now : Nat) (db : DB) : DB :=
  { db with
    customers := db.customers.map fun c =>
      if c.companyId == id && c.deletedAt.isNone then
        { c with deletedAt := some now }
      else c }

/-- Payload of the blocked-deletion response of the companies controller:
total dependent count, a sample of rows (`id`, `name`, `email`) and the two
remediation strings. -/
structure CompanyBlockedInfo where
  totalCustomers : Nat
  sampleCustomers : List (Nat × String × String)
  solutions : List String
deriving DecidableEq, Repr

/-- First remediation string of the blocked-company response. -/
def companyForceSolution : String :=
  "Use \x27?force=true\x27 to delete the company and all associated customers"

/-- Second remediation string of the blocked-company response. -/
def companyReassignSolution : String :=
  "Use \x27?force=true&reassignToCompanyId=X\x27 to reassign customers to another company"

/-- Result of a company delete request. -/
inductive DeleteCompanyOutcome where
  | ok (message : String)
  | appError (kind : ErrKind) (message : String)
  | blockedError (kind : ErrKind) (message : String) (info : CompanyBlockedInfo)
  | dbFailure
deriving DecidableEq, Repr

/-- The `deleteCompany` handler (`DELETE /api/companies/:id`), with `force`
and `reassignToCompanyId` taken from the query string and `txnFail i`
telling whether the i-th statement of the transaction (if one is opened)
fails.  Returns the response outcome and the resulting database state. -/
def deleteCompany (user : Actor) (id : Nat) (force : Option String)
    (reassignToCompanyId : Option Nat) (txnFail : Nat → Bool) (now : Nat)
    (db : DB) : DeleteCompanyOutcome × DB :=
  match companyFind db id with
  | none => (DeleteCompanyOutcome.appError ErrKind.not_found "Company not found", db)
  | some company =>
    if companyDeleteDenied user company then
      (DeleteCompanyOutcome.appError ErrKind.authorization
        "You do not have permission to delete this company", db)
    else
      if (activeCustomersOf db id).length > 0 then
        if force == some "true" then
          match reassignToCompanyId with
          | some target =>
            if (companyFind db target).isNone then
              (DeleteCompanyOutcome.appError ErrKind.validation
                "Target company for reassignment not found", db)
            else
              match runTxn
                  [(reassignCompanyCustomers target id, txnFail 0),
                   (softDeleteCompanyRow id now, txnFail 1)] db with
              | some db2 =>
                (DeleteCompanyOutcome.ok
                  s!"Company deleted successfully. {(activeCustomersOf db id).length} customers reassigned to company ID {target}",
                  db2)
              | none => (DeleteCompanyOutcome.dbFailure, db)
          | none =>
            match runTxn
                [(softDeleteCompanyLeads id now, txnFail 0),
                 (softDeleteCompanyCustomers id now, txnFail 1),
                 (softDeleteCompanyRow id now, txnFail 2)] db with
            | some db2 =>
              (DeleteCompanyOutcome.ok
                s!"Company and {(activeCustomersOf db id).length} associated customers deleted successfully",
                db2)
            | none => (DeleteCompanyOutcome.dbFailure, db)
        else
          (DeleteCompanyOutcome.blockedError ErrKind.validation
            "Cannot delete company with associated customers"
            { totalCustomers := (activeCustomersOf db id).length,
              sampleCustomers :=
                ((activeCustomersOf db id).take 5).map
                  (fun c => (c.id, c.name, c.email)),
              solutions := [companyForceSolution, companyReassignSolution] },
            db)
      else
        (DeleteCompanyOutcome.ok "Company deleted successfully",
          softDeleteCompanyRow id now db)

/-- The full `DELETE /api/companies/:id` route: the
`checkPermission` middleware for companies/delete runs first and its
rejection short-circuits the controller. -/
def deleteCompanyRoute (user : Actor) (id : Nat) (force : Option String)
    (reassignToCompanyId : Option Nat) (txnFail : Nat → Bool) (now : Nat)
    (db : DB) : DeleteCompanyOutcome × DB :=
  match checkPermission "companies" "delete" user with
  | Except.error e => (DeleteCompanyOutcome.appError e.kind e.message, db)
  | Except.ok _ => deleteCompany user id force reassignToCompanyId txnFail now db

/-- The existence pre-check of `deleteCustomer`:
`SELECT * FROM customers WHERE id = $1 AND deleted_at IS NULL`. -/
def customerFind (db : DB) (id : Nat) : Option Customer :=
  db.customers.find? (fun c => c.id == id && c.deletedAt.isNone)

/-- Active leads of a customer:
`... FROM leads WHERE customer_id = $1 AND deleted_at IS NULL`. -/
def activeLeadsOf (db : DB) (id : Nat) : List Lead :=
  db.leads.filter (fun l => l.customerId == id && l.deletedAt.isNone)

/-- The in-handler permission check of `deleteCustomer`. -/
def customerDeleteDenied (user : Actor) (customer : Customer) : Bool :=
  user.role != "super_admin" && customer.createdBy != user.id
    && !((permActions user "customers").contains "delete")

/-- Transaction statement: `UPDATE leads SET customer_id = $1 WHERE
customer_id = $2 AND deleted_at IS NULL` (reassignment). -/
def reassignCustomerLeads (target id : Nat) (db : DB) : DB :=
  { db with
    leads := db.leads.map fun l =>
      if l.customerId == id && l.deletedAt.isNone then
        { l with customerId := target }
      else l }

/-- Transaction statement: `UPDATE customers SET deleted_at = NOW() WHERE
id = $1`. -/
def softDeleteCustomerRow (id now : Nat) (db : DB) : DB :=
  { db with
    customers := db.customers.map fun c =>
      if c.id == id then { c with deletedAt := some now } else c }

/-- Transaction statement of the customer cascade: `UPDATE leads SET
deleted_at = NOW() WHERE customer_id = $1 AND deleted_at IS NULL`.  Unlike
the company cascade, this one does filter on the leads being active. -/
def softDeleteCustomerLeads (id now : Nat) (db : DB) : DB :=
  { db with
    leads := db.leads.map fun l =>
      if l.customerId == id && l.deletedAt.isNone then
        { l with deletedAt := some now }
      else l }

/-- Payload of the blocked-deletion response of the customers controller:
total dependent count, a sample of rows (`id`, `dealName`, `amount`,
`stage`) and the two remediation strings. -/
structure CustomerBlockedInfo where
  totalLeads : Nat
  sampleLeads : List (Nat × String × Nat × String)
  solutions : List String
deriving DecidableEq, Repr

/-- First remediation string of the blocked-customer response. -/
def customerForceSolution : String :=
  "Use \x27?force=true\x27 to delete the customer and all associated leads"

/-- Second remediation string of the blocked-customer response. -/
def customerReassignSolution : String :=
  "Use \x27?force=true&reassignToCustomerId=X\x27 to reassign leads to another customer"

/-- Result of a customer delete request. -/
inductive DeleteCustomerOutcome where
  | ok (message : String)
  | appError (kind : ErrKind) (message : String)
  | blockedError (kind : ErrKind) (message : String) (info : CustomerBlockedInfo)
  | dbFailure
deriving DecidableEq, Repr

/-- The `deleteCustomer` handler (`DELETE /api/customers/:id`), mirroring
`deleteCompany` one level down the Company → Customer → Lead hierarchy. -/
def deleteCustomer (user : Actor) (id : Nat) (force : Option String)
    (reassignToCustomerId : Option Nat) (txnFail : Nat → Bool) (now : Nat)
    (db : DB) : DeleteCustomerOutcome × DB :=
  match customerFind db id with
  | none => (DeleteCustomerOutcome.appError ErrKind.not_found "Customer not found", db)
  | some customer =>
    if customerDeleteDenied user customer then
      (DeleteCustomerOutcome.appError ErrKind.authorization
        "You do not have permission to delete this customer", db)
    else
      if (activeLeadsOf db id).length > 0 then
        if force == some "true" then
          match reassignToCustomerId with
          | some target =>
            if (customerFind db target).isNone then
              (DeleteCustomerOutcome.appError ErrKind.validation
                "Target customer for reassignment not found", db)
            else
              match runTxn
                  [(reassignCustomerLeads target id, txnFail 0),
                   (softDeleteCustomerRow id now, txnFail 1)] db with
              | some db2 =>
                (DeleteCustomerOutcome.ok
                  s!"Customer deleted successfully. {(activeLeadsOf db id).length} leads reassigned to customer ID {target}",
                  db2)
              | none => (DeleteCustomerOutcome.dbFailure, db)
          | none =>
            match runTxn
                [(softDeleteCustomerLeads id now, txnFail 0),
                 (softDeleteCustomerRow id now, txnFail 1)] db with
            | some db2 =>
              (DeleteCustomerOutcome.ok
                s!"Customer and {(activeLeadsOf db id).length} associated leads deleted successfully",
                db2)
            | none => (DeleteCustomerOutcome.dbFailure, db)
        else
          (DeleteCustomerOutcome.blockedError ErrKind.validation
            "Cannot delete customer with associated leads"
            { totalLeads := (activeLeadsOf db id).length,
              sampleLeads :=
                ((activeLeadsOf db id).take 5).map
                  (fun l => (l.id, l.dealName, l.amount, l.stage)),
              solutions := [customerForceSolution, customerReassignSolution] },
            db)
      else
        (DeleteCustomerOutcome.ok "Customer deleted successfully",
          softDeleteCustomerRow id now db)

/-- The full `DELETE /api/customers/:id` route with its
`checkPermission` middleware for customers/delete. -/
def deleteCustomerRoute (user : Actor) (id : Nat) (force : Option String)
    (reassignToCustomerId : Option Nat) (txnFail : Nat → Bool) (now : Nat)
    (db : DB) : DeleteCustomerOutcome × DB :=
  match checkPermission "customers" "delete" user with
  | Except.error e => (DeleteCustomerOutcome.appError e.kind e.message, db)
  | Except.ok _ => deleteCustomer user id force reassignToCustomerId txnFail now db

/-- The existence pre-check of `deleteLead`:
`SELECT * FROM leads WHERE id = $1 AND deleted_at IS NULL`. -/
def leadFind (db : DB) (id : Nat) : Option Lead :=
  db.leads.find? (fun l => l.id == id && l.deletedAt.isNone)

/-- The in-handler permission check of `deleteLead`. -/
def leadDeleteDenied (user : Actor) (lead : Lead) : Bool :=
  user.role != "super_admin" && lead.createdBy != user.id
    && !((permActions user "leads").contains "delete")

/-- Statement: `UPDATE leads SET deleted_at = NOW() WHERE id = $1`. -/
def softDeleteLeadRow (id now : Nat) (db : DB) : DB :=
  { db with
    leads := db.leads.map fun l =>
      if l.id == id then { l with deletedAt := some now } else l }

/-- Result of a lead delete request (leads have no dependents, so no
blocked payload). -/
inductive DeleteLeadOutcome where
  | ok (message : String)
  | appError (kind : ErrKind) (message : String)
deriving DecidableEq, Repr

/-- The `deleteLead` handler (`DELETE /api/leads/:id`): existence check,
permission check, then a single soft-delete of the lead row. -/
def deleteLead (user : Actor) (id : Nat) (now : Nat) (db : DB) :
    DeleteLeadOutcome × DB :=
  match leadFind db id with
  | none => (DeleteLeadOutcome.appError ErrKind.not_found "Lead not found", db)
  | some lead =>
    if leadDeleteDenied user lead then
      (DeleteLeadOutcome.appError ErrKind.authorization
        "You do not have permission to delete this lead", db)
    else
      (DeleteLeadOutcome.ok "Lead deleted successfully",
        softDeleteLeadRow id now db)

/-- Observable operations of a delete handler, in the order the handler
performs them.  `selectRow` is the existence pre-check, `authGate b` marks
the in-handler permission/ownership check resolving to allow (`true`) or
deny (`false`), `countDependents` is the dependent-count query,
`selectTarget` the reassignment-target lookup, `selectSample` the
blocked-branch sample query, and `writeRows` any `UPDATE` statement. -/
inductive DbOp where
  | selectRow
  | authGate (allowed : Bool)
  | countDependents
  | selectTarget
  | selectSample
  | writeRows
deriving DecidableEq, Repr

/-- Whether an operation is the permission gate resolving to allow. -/
def DbOp.isAllowGate : DbOp → Bool
  | DbOp.authGate true => true
  | _ => false

/-- Whether an operation is a dependent-count query or a mutating write. -/
def DbOp.isEffect : DbOp → Bool
  | DbOp.countDependents => true
  | DbOp.writeRows => true
  | _ => false

/-- Operation trace of one transaction: each statement is attempted in
order and the first failure aborts the rest. -/
def txnOps : List Bool → List DbOp
  | [] => []
  | failed :: rest =>
    DbOp.writeRows :: (if failed then [] else txnOps rest)

/-- Operation trace of the `deleteCompany` handler, branch for branch the
same control flow as `deleteCompany`. -/
def deleteCompanyOps (user : Actor) (id : Nat) (force : Option String)
    (reassignToCompanyId : Option Nat) (txnFail : Nat → Bool) (db : DB) :
    List DbOp :=
  DbOp.selectRow ::
  match companyFind db id with
  | none => []
  | some company =>
    if companyDeleteDenied user company then
      [DbOp.authGate false]
    else
      DbOp.authGate true :: DbOp.countDependents ::
      if (activeCustomersOf db id).length > 0 then
        if force == some "true" then
          match reassignToCompanyId with
          | some target =>
            if (companyFind db target).isNone then
              [DbOp.selectTarget]
            else
              DbOp.selectTarget :: txnOps [txnFail 0, txnFail 1]
          | none => txnOps [txnFail 0, txnFail 1, txnFail 2]
        else
          [DbOp.selectSample]
      else
        [DbOp.writeRows]

/-- Operation trace of the `deleteCustomer` handler. -/
def deleteCustomerOps (user : Actor) (id : Nat) (force : Option String)
    (reassignToCustomerId : Option Nat) (txnFail : Nat → Bool) (db : DB) :
    List DbOp :=
  DbOp.selectRow ::
  match customerFind db id with
  | none => []
  | some customer =>
    if customerDeleteDenied user customer then
      [DbOp.authGate false]
    else
      DbOp.authGate true :: DbOp.countDependents ::
      if (activeLeadsOf db id).length > 0 then
        if force == some "true" then
          match reassignToCustomerId with
          | some target =>
            if (customerFind db target).isNone then
              [DbOp.selectTarget]
            else
              DbOp.selectTarget :: txnOps [txnFail 0, txnFail 1]
          | none => txnOps [txnFail 0, txnFail 1]
        else
          [DbOp.selectSample]
      else
        [DbOp.writeRows]

/-- A trace respects the gate when every operation before the first
allow-gate event is neither a dependent-count query nor a write: effects
happen only after the permission check has allowed the request. -/
def gateRespecting (t : List DbOp) : Bool :=
  (t.takeWhile (fun op => ! op.isAllowGate)).all (fun op => ! op.isEffect)

/-! Concrete fixtures used by counterexamples and witnesses. -/

/-- Actor with id 7 and role `sales` whose registry grants only
`companies`/`read`: owner of company 1 below, but without the delete
grant. -/
def c1User : Actor :=
  { id := 7, role := "sales", permissions := [("companies", ["read"])] }

/-- Database with one active company created by actor 7. -/
def c1Db : DB :=
  { companies :=
      [{ id := 1, name := "Acme", industry := "Steel", createdBy := 7,
         deletedAt := none }],
    customers := [], leads := [], leadActivities := [] }

/-- Super admin actor. -/
def c2User : Actor := { id := 1, role := "super_admin", permissions := [] }

/-- Database with one active company and one active customer of it. -/
def c2Db : DB :=
  { companies :=
      [{ id := 1, name := "Acme", industry := "Steel", createdBy := 1,
         deletedAt := none }],
    customers :=
      [{ id := 10, name := "Ada", email := "ada@x.io", companyId := 1,
         createdBy := 1, deletedAt := none }],
    leads := [], leadActivities := [] }

/-- Super admin actor. -/
def c3User : Actor := { id := 2, role := "super_admin", permissions := [] }

/-- Database with one company, two active customers of it and three active
leads per customer, matching the 1 + 2 + 6 scenario of the spec. -/
def c3Db : DB :=
  { companies :=
      [{ id := 1, name := "Acme", industry := "Steel", createdBy := 2,
         deletedAt := none }],
    customers :=
      [{ id := 10, name := "Ada", email := "ada@x.io", companyId := 1,
         createdBy := 2, deletedAt := none },
       { id := 11, name := "Bob", email := "bob@x.io", companyId := 1,
         createdBy := 2, deletedAt := none }],
    leads :=
      [{ id := 100, dealName := "D0", amount := 5, stage := "new",
         customerId := 10, createdBy := 2, deletedAt := none },
       { id := 101, dealName := "D1", amount := 6, stage := "new",
         customerId := 10, createdBy := 2, deletedAt := none },
       { id := 102, dealName := "D2", amount := 7, stage := "won",
         customerId := 10, createdBy := 2, deletedAt := none },
       { id := 103, dealName := "D3", amount := 8, stage := "new",
         customerId := 11, createdBy := 2, deletedAt := none },
       { id := 104, dealName := "D4", amount := 9, stage := "lost",
         customerId := 11, createdBy := 2, deletedAt := none },
       { id := 105, dealName := "D5", amount := 10, stage := "new",
         customerId := 11, createdBy := 2, deletedAt := none }],
    leadActivities := [{ id := 1, leadId := 100, activityType := "note" }] }

/-- Company row 1 of `c3Db`. -/
def c3Company : Company :=
  { id := 1, name := "Acme", industry := "Steel", createdBy := 2,
    deletedAt := none }

/-- Customer row 11 of `c3Db`. -/
def c3Customer11 : Customer :=
  { id := 11, name := "Bob", email := "bob@x.io", companyId := 1,
    createdBy := 2, deletedAt := none }

/-- Lead row 105 of `c3Db`. -/
def c3Lead105 : Lead :=
  { id := 105, dealName := "D5", amount := 10, stage := "new",
    customerId := 11, createdBy := 2, deletedAt := none }

/-- Super admin actor. -/
def c4User : Actor := { id := 3, role := "super_admin", permissions := [] }

/-- Database with a company having two active customers and a customer
having one active lead, for the blocked-deletion witness. -/
def c4Db : DB :=
  { companies :=
      [{ id := 1, name := "Acme", industry := "Steel", createdBy := 3,
         deletedAt := none }],
    customers :=
      [{ id := 10, name := "Ada", email := "ada@x.io", companyId := 1,
         createdBy := 3, deletedAt := none },
       { id := 11, name := "Bob", email := "bob@x.io", companyId := 1,
         createdBy := 3, deletedAt := none }],
    leads :=
      [{ id := 100, dealName := "D0", amount := 5, stage := "new",
         customerId := 10, createdBy := 3, deletedAt := none }],
    leadActivities := [] }

/-- Super admin actor. -/
def c5User : Actor := { id := 4, role := "super_admin", permissions := [] }

/-- Database with two active companies, the first having one active
customer, for the reassignment witness. -/
def c5Db : DB :=
  { companies :=
      [{ id := 1, name := "Acme", industry := "Steel", createdBy := 4,
         deletedAt := none },
       { id := 2, name := "Beta", industry := "Steel", createdBy := 4,
         deletedAt := none }],
    customers :=
      [{ id := 10, name := "Ada", email := "ada@x.io", companyId := 1,
         createdBy := 4, deletedAt := none }],
    leads :=
      [{ id := 100, dealName := "D0", amount := 5, stage := "new",
         customerId := 10, createdBy := 4, deletedAt := none }],
    leadActivities := [] }

/-- Customer fixture mirroring `c5Db` one level down: two active customers,
the first having one active lead. -/
def c5DbCu : DB :=
  { companies :=
      [{ id := 1, name := "Acme", industry := "Steel", createdBy := 4,
         deletedAt := none }],
    customers :=
      [{ id := 10, name := "Ada", email := "ada@x.io", companyId := 1,
         createdBy := 4, deletedAt := none },
       { id := 11, name := "Bob", email := "bob@x.io", companyId := 1,
         createdBy := 4, deletedAt := none }],
    leads :=
      [{ id := 100, dealName := "D0", amount := 5, stage := "new",
         customerId := 10, createdBy := 4, deletedAt := none }],
    leadActivities := [] }

/-- Company row 1 of `c5Db`. -/
def c5Company1 : Company :=
  { id := 1, name := "Acme", industry := "Steel", createdBy := 4,
    deletedAt := none }

/-- Company row 2 of `c5Db`. -/
def c5Company2 : Company :=
  { id := 2, name := "Beta", industry := "Steel", createdBy := 4,
    deletedAt := none }

/-- Customer row 10 of `c5Db` and `c5DbCu`. -/
def c5Customer10 : Customer :=
  { id := 10, name := "Ada", email := "ada@x.io", companyId := 1,
    createdBy := 4, deletedAt := none }

/-- Customer row 11 of `c5DbCu`. -/
def c5Customer11 : Customer :=
  { id := 11, name := "Bob", email := "bob@x.io", companyId := 1,
    createdBy := 4, deletedAt := none }

/-- Lead row 100 of `c5DbCu`. -/
def c5Lead100 : Lead :=
  { id := 100, dealName := "D0", amount := 5, stage := "new",
    customerId := 10, createdBy := 4, deletedAt := none }

/-- Actor with role `telecaller` and no grant at all. -/
def c6User : Actor := { id := 5, role := "telecaller", permissions := [] }

/-- Super admin actor. -/
def c7User : Actor := { id := 6, role := "super_admin", permissions := [] }

/-- Database with an active company owning an active customer, and an
active customer owning an active lead; company 99 and customer 99 do not
exist. -/
def c7Db : DB :=
  { companies :=
      [{ id := 1, name := "Acme", industry := "Steel", createdBy := 6,
         deletedAt := none }],
    customers :=
      [{ id := 10, name := "Ada", email := "ada@x.io", companyId := 1,
         createdBy := 6, deletedAt := none }],
    leads :=
      [{ id := 100, dealName := "D0", amount := 5, stage := "new",
         customerId := 10, createdBy := 6, deletedAt := none }],
    leadActivities := [] }

/-- Super admin actor. -/
def c8User : Actor := { id := 8, role := "super_admin", permissions := [] }

/-- Database where lead 100 is already soft-deleted (at time 0) while its
customer 10 and company 1 are still active. -/
def c8Db : DB :=
  { companies :=
      [{ id := 1, name := "Acme", industry := "Steel", createdBy := 8,
         deletedAt := none }],
    customers :=
      [{ id := 10, name := "Ada", email := "ada@x.io", companyId := 1,
         createdBy := 8, deletedAt := none }],
    leads :=
      [{ id := 100, dealName := "D0", amount := 5, stage := "new",
         customerId := 10, createdBy := 8, deletedAt := some 0 }],
    leadActivities := [] }

/-- Actor with id 9 and role `sales` without any grant, owner of nothing
in `c9Db`. -/
def c9User : Actor := { id := 9, role := "sales", permissions := [] }

/-- Database with one active company created by actor 1 and one active
customer of it. -/
def c9Db : DB :=
  { companies :=
      [{ id := 1, name := "Acme", industry := "Steel", createdBy := 1,
         deletedAt := none }],
    customers :=
      [{ id := 10, name := "Ada", email := "ada@x.io", companyId := 1,
         createdBy := 1, deletedAt := none }],
    leads := [], leadActivities := [] }

/-! Helper lemmas: what each SQL statement leaves untouched, the row-level
content of a successful `find?`, and how `runTxn` commits or rolls back. -/

theorem companyFind_spec {db : DB} {id : Nat} {c : Company}
    (h : companyFind db id = some c) :
    c ∈ db.companies ∧ c.id = id ∧ c.deletedAt = none := by
  unfold companyFind at h
  refine ⟨List.mem_of_find?_eq_some h, ?_⟩
  have hp := List.find?_some h
  simpa [Option.isNone_iff_eq_none] using hp

theorem customerFind_spec {db : DB} {id : Nat} {c : Customer}
    (h : customerFind db id = some c) :
    c ∈ db.customers ∧ c.id = id ∧ c.deletedAt = none := by
  unfold customerFind at h
  refine ⟨List.mem_of_find?_eq_some h, ?_⟩
  have hp := List.find?_some h
  simpa [Option.isNone_iff_eq_none] using hp

theorem runTxn_pair_eq {f g : DB → DB} {b0 b1 : Bool} {db db2 : DB}
    (h : runTxn [(f, b0), (g, b1)] db = some db2) : db2 = g (f db) := by
  by_cases h0 : b0 = true
  · simp [runTxn, h0] at h
  · by_cases h1 : b1 = true
    · simp [runTxn, h0, h1] at h
    · simp [runTxn, h0, h1] at h
      exact h.symm

theorem runTxn_triple_eq {f g k : DB → DB} {b0 b1 b2 : Bool} {db db2 : DB}
    (h : runTxn [(f, b0), (g, b1), (k, b2)] db = some db2) :
    db2 = k (g (f db)) := by
  by_cases h0 : b0 = true
  · simp [runTxn, h0] at h
  · by_cases h1 : b1 = true
    · simp [runTxn, h0, h1] at h
    · by_cases h2 : b2 = true
      · simp [runTxn, h0, h1, h2] at h
      · simp [runTxn, h0, h1, h2] at h
        exact h.symm

theorem runTxn_pair_fail {f g : DB → DB} {b0 b1 : Bool} {db : DB}
    (hb : b0 = true ∨ b1 = true) : runTxn [(f, b0), (g, b1)] db = none := by
  rcases hb with hb | hb
  · simp [runTxn, hb]
  · by_cases h0 : b0 = true <;> simp [runTxn, h0, hb]

theorem runTxn_triple_fail {f g k : DB → DB} {b0 b1 b2 : Bool} {db : DB}
    (hb : b0 = true ∨ b1 = true ∨ b2 = true) :
    runTxn [(f, b0), (g, b1), (k, b2)] db = none := by
  rcases hb with hb | hb | hb
  · simp [runTxn, hb]
  · by_cases h0 : b0 = true <;> simp [runTxn, h0, hb]
  · by_cases h0 : b0 = true
    · simp [runTxn, h0]
    · by_cases h1 : b1 = true <;> simp [runTxn, h0, h1, hb]

/-- C10 (implicit frame claim): no deletion path ever modifies
`lead_activities` rows.  Direct lead deletion, customer deletion in every
mode, and company deletion in every mode (including both forced cascades
and reassignment) return a database whose `leadActivities` table is exactly
the input one, on every input, whether the request succeeds, is blocked,
is denied or its transaction fails. -/
theorem deletion_never_touches_lead_activities
    (user : Actor) (id : Nat) (force : Option String) (reassign : Option Nat)
    (txnFail : Nat → Bool) (now : Nat) (db : DB) :
    (deleteLead user id now db).2.leadActivities = db.leadActivities
    ∧ (deleteCustomer user id force reassign txnFail now db).2.leadActivities
        = db.leadActivities
    ∧ (deleteCompany user id force reassign txnFail now db).2.leadActivities
        = db.leadActivities := by
  refine ⟨?_, ?_, ?_⟩
  · unfold deleteLead
    split
    · rfl
    · split
      · rfl
      · rfl
  · unfold deleteCustomer
    split
    · rfl
    · split
      · rfl
      · split
        · split
          · split
            · split
              · rfl
              · split
                · rename_i db2 heq
                  rw [runTxn_pair_eq heq]
                  rfl
                · rfl
            · split
              · rename_i db2 heq
                rw [runTxn_pair_eq heq]
                rfl
              · rfl
          · rfl
        · rfl
  · unfold deleteCompany
    split
    · rfl
    · split
      · rfl
      · split
        · split
          · split
            · split
              · rfl
              · split
                · rename_i db2 heq
                  rw [runTxn_pair_eq heq]
                  rfl
                · rfl
            · split
              · rename_i db2 heq
                rw [runTxn_triple_eq heq]
                rfl
              · rfl
          · rfl
        · rfl

/-- C1 counterexample: actor 7 owns company 1 (`createdBy = 7`), has role
`sales` and no `companies`/`delete` grant, yet the full delete route fails
with an Authorization error — the `checkPermission` middleware has no
ownership exemption, so the delete request of an owner can fail with an
Authorization error, contrary to the claim. -/
theorem owner_delete_denied_by_route_counterexample :
    deleteCompanyRoute c1User 1 none none (fun _ => false) 0 c1Db
      = (DeleteCompanyOutcome.appError ErrKind.authorization
          "You don\x27t have permission to delete companies", c1Db) := by
  rfl

/-- C1 (amended): ownership bypasses only the controller-level permission
check — on an owned, active entity the `deleteCompany` controller itself
never produces an Authorization error — but the route-level
`checkPermission` middleware has no ownership exemption, so a
non-super-admin owner whose permission set lacks the `companies`/`delete`
grant is rejected with an Authorization error before the controller runs,
and the state is unchanged. -/
theorem owner_bypasses_controller_not_middleware
    (user : Actor) (id : Nat) (force : Option String) (reassign : Option Nat)
    (txnFail : Nat → Bool) (now : Nat) (db : DB) (company : Company)
    (hFind : companyFind db id = some company)
    (hOwner : company.createdBy = user.id) :
    (∀ m, (deleteCompany user id force reassign txnFail now db).1
        ≠ DeleteCompanyOutcome.appError ErrKind.authorization m)
    ∧ (user.role ≠ "super_admin" →
        hasPermission user "companies" "delete" = false →
        deleteCompanyRoute user id force reassign txnFail now db
          = (DeleteCompanyOutcome.appError ErrKind.authorization
              "You don\x27t have permission to delete companies", db)) := by
  have hden : companyDeleteDenied user company = false := by
    simp [companyDeleteDenied, hOwner]
  constructor
  · intro m
    simp only [deleteCompany, hFind, hden, Bool.false_eq_true, if_false]
    split
    · split
      · split
        · split
          · simp
          · split <;> simp
        · split <;> simp
      · simp
    · simp
  · intro hrole hperm
    have hr : (user.role == "super_admin") = false := by
      simpa using hrole
    simp only [deleteCompanyRoute, checkPermission, hr, hperm,
      Bool.false_eq_true, if_false]
    rfl

/-- C1 witness: the amended statement evaluated at the concrete owner of
company 1 lacking the delete grant. -/
theorem owner_bypasses_controller_not_middleware_witness :
    ((deleteCompany c1User 1 none none (fun _ => false) 0 c1Db).1
        ≠ DeleteCompanyOutcome.appError ErrKind.authorization
            "You do not have permission to delete this company")
    ∧ deleteCompanyRoute c1User 1 none none (fun _ => false) 0 c1Db
        = (DeleteCompanyOutcome.appError ErrKind.authorization
            "You don\x27t have permission to delete companies", c1Db) := by
  have h := owner_bypasses_controller_not_middleware c1User 1 none none
    (fun _ => false) 0 c1Db
    { id := 1, name := "Acme", industry := "Steel", createdBy := 7,
      deletedAt := none }
    (by rfl) (by rfl)
  exact ⟨h.1 _, h.2 (by decide) (by rfl)⟩

/-- C2 (code-bug exhibit): a force-delete of company 1 that names company 1
itself as the reassignment target is not rejected — the target-validation
query only requires an active row and company 1 is still active at that
point — so the transaction commits: the handler reports success, customer
10 still references company 1, and company 1 is soft-deleted, leaving an
active customer attached to a deleted company instead of the Validation
error the claim requires. -/
theorem self_reassignment_commits :
    deleteCompany c2User 1 (some "true") (some 1) (fun _ => false) 7 c2Db
      = (DeleteCompanyOutcome.ok
          "Company deleted successfully. 1 customers reassigned to company ID 1",
         { companies :=
             [{ id := 1, name := "Acme", industry := "Steel", createdBy := 1,
                deletedAt := some 7 }],
           customers :=
             [{ id := 10, name := "Ada", email := "ada@x.io", companyId := 1,
                createdBy := 1, deletedAt := none }],
           leads := [], leadActivities := [] }) := by
  rfl

/-- C8 (code-bug exhibit): the forced company cascade re-stamps `deletedAt`
on lead 100, which was already soft-deleted at time 0, because its `UPDATE
leads` statement has no `deleted_at IS NULL` filter (the customer cascade
has one): after cascading company 1 at time 1 the `deletedAt` of the lead is
`some 1`, so `deletedAt` is not set at most once. -/
theorem company_cascade_restamps_deleted_lead :
    (c8Db.leads.map fun l => l.deletedAt) = [some 0]
    ∧ ((deleteCompany c8User 1 (some "true") none (fun _ => false) 1 c8Db).2.leads.map
        fun l => l.deletedAt) = [some 1] := by
  exact ⟨rfl, rfl⟩

/-- C7: a force-delete naming a reassignment target that does not exist or
is already soft-deleted fails with a Validation error and commits nothing,
for the company handler and for the customer handler alike. -/
theorem invalid_reassign_target_rejected
    (userA userB : Actor) (idA idB tA tB : Nat) (txnFailA txnFailB : Nat → Bool)
    (nowA nowB : Nat) (dbA dbB : DB) (company : Company) (customer : Customer)
    (hFindA : companyFind dbA idA = some company)
    (hAuthA : companyDeleteDenied userA company = false)
    (hNA : 0 < (activeCustomersOf dbA idA).length)
    (hTargetA : companyFind dbA tA = none)
    (hFindB : customerFind dbB idB = some customer)
    (hAuthB : customerDeleteDenied userB customer = false)
    (hNB : 0 < (activeLeadsOf dbB idB).length)
    (hTargetB : customerFind dbB tB = none) :
    deleteCompany userA idA (some "true") (some tA) txnFailA nowA dbA
      = (DeleteCompanyOutcome.appError ErrKind.validation
          "Target company for reassignment not found", dbA)
    ∧ deleteCustomer userB idB (some "true") (some tB) txnFailB nowB dbB
      = (DeleteCustomerOutcome.appError ErrKind.validation
          "Target customer for reassignment not found", dbB) := by
  constructor
  · simp [deleteCompany, hFindA, hAuthA, hNA, hTargetA]
  · simp [deleteCustomer, hFindB, hAuthB, hNB, hTargetB]

/-- C7 witness: reassigning to the nonexistent company 99 (resp. customer
99) is rejected with a Validation error and leaves the database as it
was. -/
theorem invalid_reassign_target_rejected_witness :
    deleteCompany c7User 1 (some "true") (some 99) (fun _ => false) 3 c7Db
      = (DeleteCompanyOutcome.appError ErrKind.validation
          "Target company for reassignment not found", c7Db)
    ∧ deleteCustomer c7User 10 (some "true") (some 99) (fun _ => false) 3 c7Db
      = (DeleteCustomerOutcome.appError ErrKind.validation
          "Target customer for reassignment not found", c7Db) := by
  exact invalid_reassign_target_rejected c7User c7User 1 10 99 99
    (fun _ => false) (fun _ => false) 3 3 c7Db c7Db
    { id := 1, name := "Acme", industry := "Steel", createdBy := 6,
      deletedAt := none }
    { id := 10, name := "Ada", email := "ada@x.io", companyId := 1,
      createdBy := 6, deletedAt := none }
    (by rfl) (by rfl) (by decide) (by rfl) (by rfl) (by rfl) (by decide) (by rfl)

/-- C6: super admins always pass the permission checks regardless of
registry content or ownership; a non-super-admin, non-owner passes exactly
when the action is present in their resolved permission set for the
resource, and the middleware denial carries an authorization error naming
the action and the resource.  Stated for the `checkPermission` middleware
and for the in-handler gates of `deleteCompany` and `getCompanyById`. -/
theorem permission_evaluation_matrix :
    (∀ (resource action : String) (user : Actor),
        user.role = "super_admin" →
          checkPermission resource action user = Except.ok ())
    ∧ (∀ (resource action : String) (user : Actor),
        user.role ≠ "super_admin" →
          (checkPermission resource action user = Except.ok ()
            ↔ hasPermission user resource action = true))
    ∧ (∀ (resource action : String) (user : Actor),
        user.role ≠ "super_admin" → hasPermission user resource action = false →
          checkPermission resource action user
            = Except.error
                { message := s!"You don\x27t have permission to {action} {resource}",
                  kind := ErrKind.authorization })
    ∧ (∀ (user : Actor) (company : Company),
        user.role = "super_admin" → companyDeleteDenied user company = false)
    ∧ (∀ (user : Actor) (company : Company),
        user.role ≠ "super_admin" → company.createdBy ≠ user.id →
          (companyDeleteDenied user company = false
            ↔ (permActions user "companies").contains "delete" = true))
    ∧ (∀ (user : Actor) (createdBy : Nat),
        user.role = "super_admin" → companyReadDenied user createdBy = false)
    ∧ (∀ (user : Actor) (createdBy : Nat),
        user.role ≠ "super_admin" → createdBy ≠ user.id →
          (companyReadDenied user createdBy = false
            ↔ (permActions user "companies").contains "read" = true)) := by
  refine ⟨?_, ?_, ?_, ?_, ?_, ?_, ?_⟩
  · intro resource action user h
    simp [checkPermission, h]
  · intro resource action user h
    have hr : (user.role == "super_admin") = false := by simpa using h
    by_cases hp : hasPermission user resource action = true <;>
      simp [checkPermission, hr, hp]
  · intro resource action user h hp
    have hr : (user.role == "super_admin") = false := by simpa using h
    simp [checkPermission, hr, hp]
  · intro user company h
    simp [companyDeleteDenied, h]
  · intro user company h hown
    have hr : (user.role == "super_admin") = false := by simpa using h
    have ho : (company.createdBy == user.id) = false := by simpa using hown
    simp [companyDeleteDenied, hr, ho]
    exact ⟨fun f => f h hown, fun m _ _ => m⟩
  · intro user createdBy h
    simp [companyReadDenied, h]
  · intro user createdBy h hown
    have hr : (user.role == "super_admin") = false := by simpa using h
    have ho : (createdBy == user.id) = false := by simpa using hown
    simp [companyReadDenied, hr, ho]
    exact ⟨fun f => f h hown, fun m _ _ => m⟩

/-- C6 witness: the matrix evaluated at a super admin (always allowed) and
at a telecaller with an empty registry (denied, with the message naming
the action and the resource). -/
theorem permission_evaluation_matrix_witness :
    checkPermission "companies" "delete" c2User = Except.ok ()
    ∧ checkPermission "companies" "delete" c6User
        = Except.error
            { message := "You don\x27t have permission to delete companies",
              kind := ErrKind.authorization }
    ∧ companyDeleteDenied c6User
        { id := 1, name := "Acme", industry := "Steel", createdBy := 1,
          deletedAt := none } = true := by
  refine ⟨permission_evaluation_matrix.1 "companies" "delete" c2User (by rfl),
    ?_, by decide⟩
  exact permission_evaluation_matrix.2.2.1 "companies" "delete" c6User
    (by decide) (by rfl)

/-- C4: deleting an entity with N > 0 active dependents without `force`
yields a blocked outcome surfaced as a Validation error whose payload
carries the total dependent count N, a sample of `min N 5` dependents
drawn from the active dependents with their id and display fields, and
exactly the two remediation strings for the `force=true` and
`force=true&reassignTo...Id=X` strategies; the database is unchanged.
Stated for the company handler and the customer handler. -/
theorem blocked_delete_reports_count_sample_remediations
    (userA userB : Actor) (idA idB N M : Nat) (txnFailA txnFailB : Nat → Bool)
    (nowA nowB : Nat) (dbA dbB : DB) (company : Company) (customer : Customer)
    (hFindA : companyFind dbA idA = some company)
    (hAuthA : companyDeleteDenied userA company = false)
    (hNA : (activeCustomersOf dbA idA).length = N) (hposA : 0 < N)
    (hFindB : customerFind dbB idB = some customer)
    (hAuthB : customerDeleteDenied userB customer = false)
    (hNB : (activeLeadsOf dbB idB).length = M) (hposB : 0 < M) :
    (∃ info : CompanyBlockedInfo,
      deleteCompany userA idA none none txnFailA nowA dbA
        = (DeleteCompanyOutcome.blockedError ErrKind.validation
            "Cannot delete company with associated customers" info, dbA)
      ∧ info.totalCustomers = N
      ∧ info.sampleCustomers.length = min N 5
      ∧ (∀ s ∈ info.sampleCustomers, ∃ c, c ∈ dbA.customers
          ∧ c.companyId = idA ∧ c.deletedAt = none
          ∧ s = (c.id, c.name, c.email))
      ∧ info.solutions = [companyForceSolution, companyReassignSolution])
    ∧ (∃ info : CustomerBlockedInfo,
      deleteCustomer userB idB none none txnFailB nowB dbB
        = (DeleteCustomerOutcome.blockedError ErrKind.validation
            "Cannot delete customer with associated leads" info, dbB)
      ∧ info.totalLeads = M
      ∧ info.sampleLeads.length = min M 5
      ∧ (∀ s ∈ info.sampleLeads, ∃ l, l ∈ dbB.leads
          ∧ l.customerId = idB ∧ l.deletedAt = none
          ∧ s = (l.id, l.dealName, l.amount, l.stage))
      ∧ info.solutions = [customerForceSolution, customerReassignSolution]) := by
  have hposA2 : 0 < (activeCustomersOf dbA idA).length := hNA ▸ hposA
  have hposB2 : 0 < (activeLeadsOf dbB idB).length := hNB ▸ hposB
  constructor
  · refine ⟨{ totalCustomers := (activeCustomersOf dbA idA).length,
              sampleCustomers :=
                ((activeCustomersOf dbA idA).take 5).map
                  (fun c => (c.id, c.name, c.email)),
              solutions := [companyForceSolution, companyReassignSolution] },
      ?_, hNA, ?_, ?_, rfl⟩
    · simp [deleteCompany, hFindA, hAuthA, hposA2]
    · simp [List.length_take, hNA, Nat.min_comm]
    · intro s hs
      obtain ⟨c, hc, hsc⟩ := List.mem_map.mp hs
      have hc2 : c ∈ activeCustomersOf dbA idA := List.take_subset 5 _ hc
      obtain ⟨hmem, hprop⟩ := List.mem_filter.mp hc2
      refine ⟨c, hmem, ?_, ?_, hsc.symm⟩
      · have := (Bool.and_eq_true _ _).mp hprop
        simpa using this.1
      · have := (Bool.and_eq_true _ _).mp hprop
        simpa [Option.isNone_iff_eq_none] using this.2
  · refine ⟨{ totalLeads := (activeLeadsOf dbB idB).length,
              sampleLeads :=
                ((activeLeadsOf dbB idB).take 5).map
                  (fun l => (l.id, l.dealName, l.amount, l.stage)),
              solutions := [customerForceSolution, customerReassignSolution] },
      ?_, hNB, ?_, ?_, rfl⟩
    · simp [deleteCustomer, hFindB, hAuthB, hposB2]
    · simp [List.length_take, hNB, Nat.min_comm]
    · intro s hs
      obtain ⟨l, hl, hsl⟩ := List.mem_map.mp hs
      have hl2 : l ∈ activeLeadsOf dbB idB := List.take_subset 5 _ hl
      obtain ⟨hmem, hprop⟩ := List.mem_filter.mp hl2
      refine ⟨l, hmem, ?_, ?_, hsl.symm⟩
      · have := (Bool.and_eq_true _ _).mp hprop
        simpa using this.1
      · have := (Bool.and_eq_true _ _).mp hprop
        simpa [Option.isNone_iff_eq_none] using this.2

/-- C4 witness: company 1 of `c4Db` has two active customers; deleting it
without force is blocked with count 2, sample size `min 2 5` and the two
remediation strings; customer 10 has one active lead and behaves alike. -/
theorem blocked_delete_reports_witness :
    (∃ info : CompanyBlockedInfo,
      deleteCompany c4User 1 none none (fun _ => false) 3 c4Db
        = (DeleteCompanyOutcome.blockedError ErrKind.validation
            "Cannot delete company with associated customers" info, c4Db)
      ∧ info.totalCustomers = 2
      ∧ info.sampleCustomers.length = min 2 5
      ∧ info.solutions = [companyForceSolution, companyReassignSolution])
    ∧ (∃ info : CustomerBlockedInfo,
      deleteCustomer c4User 10 none none (fun _ => false) 3 c4Db
        = (DeleteCustomerOutcome.blockedError ErrKind.validation
            "Cannot delete customer with associated leads" info, c4Db)
      ∧ info.totalLeads = 1
      ∧ info.sampleLeads.length = min 1 5
      ∧ info.solutions = [customerForceSolution, customerReassignSolution]) := by
  obtain ⟨⟨infoA, h1, h2, h3, _, h5⟩, ⟨infoB, g1, g2, g3, _, g5⟩⟩ :=
    blocked_delete_reports_count_sample_remediations c4User c4User 1 10 2 1
      (fun _ => false) (fun _ => false) 3 3 c4Db c4Db
      { id := 1, name := "Acme", industry := "Steel", createdBy := 3,
        deletedAt := none }
      { id := 10, name := "Ada", email := "ada@x.io", companyId := 1,
        createdBy := 3, deletedAt := none }
      (by rfl) (by rfl) (by rfl) (by decide) (by rfl) (by rfl) (by rfl)
      (by decide)
  exact ⟨⟨infoA, h1, h2, h3, h5⟩, ⟨infoB, g1, g2, g3, g5⟩⟩

/-- C9: in every execution of a delete handler the permission/ownership
check precedes every dependent-count query and every write — formally,
every operation of the handler trace before the first allow-gate event is
neither a count query nor a write — and a denial leaves the database
unchanged, returning only the Authorization error.  Stated for both the
company and the customer handler. -/
theorem authorization_precedes_effects
    (user : Actor) (id : Nat) (force : Option String) (reassign : Option Nat)
    (txnFail : Nat → Bool) (now : Nat) (db : DB) :
    gateRespecting (deleteCompanyOps user id force reassign txnFail db) = true
    ∧ gateRespecting (deleteCustomerOps user id force reassign txnFail db) = true
    ∧ (∀ company, companyFind db id = some company →
        companyDeleteDenied user company = true →
          deleteCompany user id force reassign txnFail now db
            = (DeleteCompanyOutcome.appError ErrKind.authorization
                "You do not have permission to delete this company", db))
    ∧ (∀ customer, customerFind db id = some customer →
        customerDeleteDenied user customer = true →
          deleteCustomer user id force reassign txnFail now db
            = (DeleteCustomerOutcome.appError ErrKind.authorization
                "You do not have permission to delete this customer", db)) := by
  refine ⟨?_, ?_, ?_, ?_⟩
  · cases hf : companyFind db id with
    | none => simp [deleteCompanyOps, hf, gateRespecting, DbOp.isAllowGate,
        DbOp.isEffect]
    | some company =>
      by_cases hd : companyDeleteDenied user company <;>
        simp [deleteCompanyOps, hf, hd, gateRespecting, List.takeWhile_cons,
          DbOp.isAllowGate, DbOp.isEffect]
  · cases hf : customerFind db id with
    | none => simp [deleteCustomerOps, hf, gateRespecting, DbOp.isAllowGate,
        DbOp.isEffect]
    | some customer =>
      by_cases hd : customerDeleteDenied user customer <;>
        simp [deleteCustomerOps, hf, hd, gateRespecting, List.takeWhile_cons,
          DbOp.isAllowGate, DbOp.isEffect]
  · intro company hFind hDen
    simp [deleteCompany, hFind, hDen]
  · intro customer hFind hDen
    simp [deleteCustomer, hFind, hDen]

/-- C9 witness: actor 9 (role `sales`, no grants, not the owner) is denied
on company 1 of `c9Db` with the state unchanged, and the traces of both
handlers respect the gate on that input. -/
theorem authorization_precedes_effects_witness :
    gateRespecting (deleteCompanyOps c9User 1 none none (fun _ => false) c9Db)
      = true
    ∧ deleteCompany c9User 1 none none (fun _ => false) 4 c9Db
        = (DeleteCompanyOutcome.appError ErrKind.authorization
            "You do not have permission to delete this company", c9Db) := by
  have h := authorization_precedes_effects c9User 1 none none
    (fun _ => false) 4 c9Db
  exact ⟨h.1, h.2.2.1
    { id := 1, name := "Acme", industry := "Steel", createdBy := 1,
      deletedAt := none } (by rfl) (by decide)⟩

/-- C3: a forced company delete without a reassignment target soft-deletes
the whole subtree as one transaction: when no statement of the transaction
fails, the company row, every active customer of the company and every
lead of an active customer of the company (in particular every active such
lead) end up with `deletedAt = some now`; and if any of the three
statements fails, the transaction rolls back and the database is exactly
the input one. -/
theorem company_force_cascade_soft_deletes_subtree
    (user : Actor) (id : Nat) (txnFail : Nat → Bool) (now : Nat) (db : DB)
    (company : Company)
    (hFind : companyFind db id = some company)
    (hAuth : companyDeleteDenied user company = false)
    (hN : 0 < (activeCustomersOf db id).length) :
    ((∀ i, txnFail i = false) →
      (deleteCompany user id (some "true") none txnFail now db).1
        = DeleteCompanyOutcome.ok
            s!"Company and {(activeCustomersOf db id).length} associated customers deleted successfully"
      ∧ { company with deletedAt := some now }
          ∈ (deleteCompany user id (some "true") none txnFail now db).2.companies
      ∧ (∀ c ∈ db.customers, c.companyId = id → c.deletedAt = none →
          { c with deletedAt := some now }
            ∈ (deleteCompany user id (some "true") none txnFail now db).2.customers)
      ∧ (∀ l ∈ db.leads, (∃ c ∈ db.customers, c.id = l.customerId
            ∧ c.companyId = id ∧ c.deletedAt = none) →
          { l with deletedAt := some now }
            ∈ (deleteCompany user id (some "true") none txnFail now db).2.leads))
    ∧ ((txnFail 0 = true ∨ txnFail 1 = true ∨ txnFail 2 = true) →
      deleteCompany user id (some "true") none txnFail now db
        = (DeleteCompanyOutcome.dbFailure, db)) := by
  constructor
  · intro hOk
    have hrun : runTxn
        [(softDeleteCompanyLeads id now, txnFail 0),
         (softDeleteCompanyCustomers id now, txnFail 1),
         (softDeleteCompanyRow id now, txnFail 2)] db
        = some (softDeleteCompanyRow id now
            (softDeleteCompanyCustomers id now
              (softDeleteCompanyLeads id now db))) := by
      simp [runTxn, hOk]
    have hred : deleteCompany user id (some "true") none txnFail now db
        = (DeleteCompanyOutcome.ok
            s!"Company and {(activeCustomersOf db id).length} associated customers deleted successfully",
          softDeleteCompanyRow id now
            (softDeleteCompanyCustomers id now
              (softDeleteCompanyLeads id now db))) := by
      simp [deleteCompany, hFind, hAuth, hN, hrun]
    rw [hred]
    obtain ⟨hmem, hid, hact⟩ := companyFind_spec hFind
    refine ⟨rfl, ?_, ?_, ?_⟩
    · show { company with deletedAt := some now } ∈ db.companies.map
        (fun c => if c.id == id then { c with deletedAt := some now } else c)
      have himg := List.mem_map_of_mem
        (f := fun c : Company =>
          if c.id == id then { c with deletedAt := some now } else c) hmem
      simpa [hid] using himg
    · intro c hc hcid hcdel
      show { c with deletedAt := some now } ∈ db.customers.map
        (fun c => if c.companyId == id && c.deletedAt.isNone then
          { c with deletedAt := some now } else c)
      have himg := List.mem_map_of_mem
        (f := fun c : Customer =>
          if c.companyId == id && c.deletedAt.isNone then
            { c with deletedAt := some now } else c) hc
      simpa [hcid, hcdel] using himg
    · rintro l hl ⟨c, hcmem, hcid, hccomp, hcdel⟩
      show { l with deletedAt := some now } ∈ db.leads.map
        (fun l => if db.customers.any
            (fun c => c.id == l.customerId && c.companyId == id
              && c.deletedAt.isNone) then
          { l with deletedAt := some now } else l)
      have hany : db.customers.any
          (fun c => c.id == l.customerId && c.companyId == id
            && c.deletedAt.isNone) = true :=
        List.any_eq_true.mpr ⟨c, hcmem, by simp [hcid, hccomp, hcdel]⟩
      have himg := List.mem_map_of_mem
        (f := fun l : Lead =>
          if db.customers.any
              (fun c => c.id == l.customerId && c.companyId == id
                && c.deletedAt.isNone) then
            { l with deletedAt := some now } else l) hl
      simpa [hany] using himg
  · intro hb
    have hrun : runTxn
        [(softDeleteCompanyLeads id now, txnFail 0),
         (softDeleteCompanyCustomers id now, txnFail 1),
         (softDeleteCompanyRow id now, txnFail 2)] db = none :=
      runTxn_triple_fail hb
    simp [deleteCompany, hFind, hAuth, hN, hrun]

/-- C3 witness: force-cascading company 1 of `c3Db` (two active customers,
three active leads each) reports the cascade of the two customers, and the
company row, a customer row and a lead row all appear soft-deleted at time
9; with a failing transaction statement nothing changes. -/
theorem company_force_cascade_witness :
    (deleteCompany c3User 1 (some "true") none (fun _ => false) 9 c3Db).1
      = DeleteCompanyOutcome.ok
          "Company and 2 associated customers deleted successfully"
    ∧ ({ id := 1, name := "Acme", industry := "Steel", createdBy := 2,
         deletedAt := some 9 } : Company)
        ∈ (deleteCompany c3User 1 (some "true") none (fun _ => false) 9
            c3Db).2.companies
    ∧ ({ id := 11, name := "Bob", email := "bob@x.io", companyId := 1,
         createdBy := 2, deletedAt := some 9 } : Customer)
        ∈ (deleteCompany c3User 1 (some "true") none (fun _ => false) 9
            c3Db).2.customers
    ∧ ({ id := 105, dealName := "D5", amount := 10, stage := "new",
         customerId := 11, createdBy := 2, deletedAt := some 9 } : Lead)
        ∈ (deleteCompany c3User 1 (some "true") none (fun _ => false) 9
            c3Db).2.leads
    ∧ deleteCompany c3User 1 (some "true") none (fun _ => true) 9 c3Db
        = (DeleteCompanyOutcome.dbFailure, c3Db) := by
  have h := company_force_cascade_soft_deletes_subtree c3User 1
    (fun _ => false) 9 c3Db c3Company (by rfl) (by rfl) (by decide)
  have hfail := company_force_cascade_soft_deletes_subtree c3User 1
    (fun _ => true) 9 c3Db c3Company (by rfl) (by rfl) (by decide)
  obtain ⟨h1, h2, h3, h4⟩ := h.1 (fun i => rfl)
  refine ⟨h1, h2, ?_, ?_, hfail.2 (Or.inl rfl)⟩
  · exact h3 c3Customer11 (by simp [c3Db, c3Customer11]) rfl rfl
  · exact h4 c3Lead105 (by simp [c3Db, c3Lead105])
      ⟨c3Customer11, by simp [c3Db, c3Customer11], rfl, rfl, rfl⟩

theorem map_comp_eq {α β : Type} (l : List α) (f : α → α) (g : α → β)
    (h : ∀ a, g (f a) = g a) : (l.map f).map g = l.map g := by
  induction l with
  | nil => rfl
  | cons a t ih => simp only [List.map_cons, h a, ih]

/-- C5: a force-delete with a valid reassignment target (an active row of
the same type, distinct from the row being deleted) and N > 0 active
dependents, when no transaction statement fails, re-points every active
direct dependent to the target, reports N reassigned dependents, makes
only the `deletedAt` of the original parent non-null — the target row and
every other row of the parent table are unchanged, the `deletedAt` column of
the dependents
column is unchanged, and the grandchild table is untouched.  Stated for
both the company and the customer handler. -/
theorem reassignment_moves_dependents_soft_deletes_parent
    (userA userB : Actor) (idA idB tA tB N M : Nat)
    (txnFailA txnFailB : Nat → Bool) (nowA nowB : Nat) (dbA dbB : DB)
    (company targetCompany : Company) (customer targetCustomer : Customer)
    (hFindA : companyFind dbA idA = some company)
    (hAuthA : companyDeleteDenied userA company = false)
    (hNA : (activeCustomersOf dbA idA).length = N) (hposA : 0 < N)
    (hTargetA : companyFind dbA tA = some targetCompany) (hNeA : tA ≠ idA)
    (hOkA : ∀ i, txnFailA i = false)
    (hFindB : customerFind dbB idB = some customer)
    (hAuthB : customerDeleteDenied userB customer = false)
    (hNB : (activeLeadsOf dbB idB).length = M) (hposB : 0 < M)
    (hTargetB : customerFind dbB tB = some targetCustomer) (hNeB : tB ≠ idB)
    (hOkB : ∀ i, txnFailB i = false) :
    ((deleteCompany userA idA (some "true") (some tA) txnFailA nowA dbA).1
      = DeleteCompanyOutcome.ok
          s!"Company deleted successfully. {N} customers reassigned to company ID {tA}"
    ∧ (∀ c ∈ dbA.customers, c.companyId = idA → c.deletedAt = none →
        { c with companyId := tA }
          ∈ (deleteCompany userA idA (some "true") (some tA) txnFailA nowA
              dbA).2.customers)
    ∧ ((deleteCompany userA idA (some "true") (some tA) txnFailA nowA
          dbA).2.customers.map (fun c => c.deletedAt)
        = dbA.customers.map (fun c => c.deletedAt))
    ∧ { company with deletedAt := some nowA }
        ∈ (deleteCompany userA idA (some "true") (some tA) txnFailA nowA
            dbA).2.companies
    ∧ targetCompany
        ∈ (deleteCompany userA idA (some "true") (some tA) txnFailA nowA
            dbA).2.companies
    ∧ targetCompany.deletedAt = none
    ∧ (∀ co ∈ dbA.companies, co.id ≠ idA →
        co ∈ (deleteCompany userA idA (some "true") (some tA) txnFailA nowA
            dbA).2.companies)
    ∧ (deleteCompany userA idA (some "true") (some tA) txnFailA nowA
        dbA).2.leads = dbA.leads)
    ∧ ((deleteCustomer userB idB (some "true") (some tB) txnFailB nowB dbB).1
      = DeleteCustomerOutcome.ok
          s!"Customer deleted successfully. {M} leads reassigned to customer ID {tB}"
    ∧ (∀ l ∈ dbB.leads, l.customerId = idB → l.deletedAt = none →
        { l with customerId := tB }
          ∈ (deleteCustomer userB idB (some "true") (some tB) txnFailB nowB
              dbB).2.leads)
    ∧ ((deleteCustomer userB idB (some "true") (some tB) txnFailB nowB
          dbB).2.leads.map (fun l => l.deletedAt)
        = dbB.leads.map (fun l => l.deletedAt))
    ∧ { customer with deletedAt := some nowB }
        ∈ (deleteCustomer userB idB (some "true") (some tB) txnFailB nowB
            dbB).2.customers
    ∧ targetCustomer
        ∈ (deleteCustomer userB idB (some "true") (some tB) txnFailB nowB
            dbB).2.customers
    ∧ targetCustomer.deletedAt = none
    ∧ (∀ cu ∈ dbB.customers, cu.id ≠ idB →
        cu ∈ (deleteCustomer userB idB (some "true") (some tB) txnFailB nowB
            dbB).2.customers)
    ∧ (deleteCustomer userB idB (some "true") (some tB) txnFailB nowB
        dbB).2.companies = dbB.companies) := by
  have hposA2 : 0 < (activeCustomersOf dbA idA).length := hNA ▸ hposA
  have hposB2 : 0 < (activeLeadsOf dbB idB).length := hNB ▸ hposB
  constructor
  · have hrun : runTxn
        [(reassignCompanyCustomers tA idA, txnFailA 0),
         (softDeleteCompanyRow idA nowA, txnFailA 1)] dbA
        = some (softDeleteCompanyRow idA nowA
            (reassignCompanyCustomers tA idA dbA)) := by
      simp [runTxn, hOkA]
    have hred : deleteCompany userA idA (some "true") (some tA) txnFailA nowA
        dbA
        = (DeleteCompanyOutcome.ok
            s!"Company deleted successfully. {(activeCustomersOf dbA idA).length} customers reassigned to company ID {tA}",
          softDeleteCompanyRow idA nowA
            (reassignCompanyCustomers tA idA dbA)) := by
      simp [deleteCompany, hFindA, hAuthA, hposA2, hTargetA, hrun]
    rw [hred]
    obtain ⟨hmem, hid, hact⟩ := companyFind_spec hFindA
    obtain ⟨htmem, htid, htact⟩ := companyFind_spec hTargetA
    refine ⟨by rw [hNA], ?_, ?_, ?_, ?_, htact, ?_, rfl⟩
    · intro c hc hcid hcdel
      show { c with companyId := tA } ∈ dbA.customers.map
        (fun c => if c.companyId == idA && c.deletedAt.isNone then
          { c with companyId := tA } else c)
      have himg := List.mem_map_of_mem
        (f := fun c : Customer =>
          if c.companyId == idA && c.deletedAt.isNone then
            { c with companyId := tA } else c) hc
      simpa [hcid, hcdel] using himg
    · show (dbA.customers.map
          (fun c => if c.companyId == idA && c.deletedAt.isNone then
            { c with companyId := tA } else c)).map (fun c => c.deletedAt)
        = dbA.customers.map (fun c => c.deletedAt)
      refine map_comp_eq _ _ _ (fun a => ?_)
      by_cases hc : (a.companyId == idA && a.deletedAt.isNone) = true <;>
        simp [hc]
    · show { company with deletedAt := some nowA } ∈ dbA.companies.map
        (fun c => if c.id == idA then { c with deletedAt := some nowA } else c)
      have himg := List.mem_map_of_mem
        (f := fun c : Company =>
          if c.id == idA then { c with deletedAt := some nowA } else c) hmem
      simpa [hid] using himg
    · show targetCompany ∈ dbA.companies.map
        (fun c => if c.id == idA then { c with deletedAt := some nowA } else c)
      have himg := List.mem_map_of_mem
        (f := fun c : Company =>
          if c.id == idA then { c with deletedAt := some nowA } else c) htmem
      simpa [htid, hNeA] using himg
    · intro co hco hne
      show co ∈ dbA.companies.map
        (fun c => if c.id == idA then { c with deletedAt := some nowA } else c)
      have himg := List.mem_map_of_mem
        (f := fun c : Company =>
          if c.id == idA then { c with deletedAt := some nowA } else c) hco
      simpa [hne] using himg
  · have hrun : runTxn
        [(reassignCustomerLeads tB idB, txnFailB 0),
         (softDeleteCustomerRow idB nowB, txnFailB 1)] dbB
        = some (softDeleteCustomerRow idB nowB
            (reassignCustomerLeads tB idB dbB)) := by
      simp [runTxn, hOkB]
    have hred : deleteCustomer userB idB (some "true") (some tB) txnFailB nowB
        dbB
        = (DeleteCustomerOutcome.ok
            s!"Customer deleted successfully. {(activeLeadsOf dbB idB).length} leads reassigned to customer ID {tB}",
          softDeleteCustomerRow idB nowB
            (reassignCustomerLeads tB idB dbB)) := by
      simp [deleteCustomer, hFindB, hAuthB, hposB2, hTargetB, hrun]
    rw [hred]
    obtain ⟨hmem, hid, hact⟩ := customerFind_spec hFindB
    obtain ⟨htmem, htid, htact⟩ := customerFind_spec hTargetB
    refine ⟨by rw [hNB], ?_, ?_, ?_, ?_, htact, ?_, rfl⟩
    · intro l hl hlid hldel
      show { l with customerId := tB } ∈ dbB.leads.map
        (fun l => if l.customerId == idB && l.deletedAt.isNone then
          { l with customerId := tB } else l)
      have himg := List.mem_map_of_mem
        (f := fun l : Lead =>
          if l.customerId == idB && l.deletedAt.isNone then
            { l with customerId := tB } else l) hl
      simpa [hlid, hldel] using himg
    · show (dbB.leads.map
          (fun l => if l.customerId == idB && l.deletedAt.isNone then
            { l with customerId := tB } else l)).map (fun l => l.deletedAt)
        = dbB.leads.map (fun l => l.deletedAt)
      refine map_comp_eq _ _ _ (fun a => ?_)
      by_cases hc : (a.customerId == idB && a.deletedAt.isNone) = true <;>
        simp [hc]
    · show { customer with deletedAt := some nowB } ∈ dbB.customers.map
        (fun c => if c.id == idB then { c with deletedAt := some nowB } else c)
      have himg := List.mem_map_of_mem
        (f := fun c : Customer =>
          if c.id == idB then { c with deletedAt := some nowB } else c) hmem
      simpa [hid] using himg
    · show targetCustomer ∈ dbB.customers.map
        (fun c => if c.id == idB then { c with deletedAt := some nowB } else c)
      have himg := List.mem_map_of_mem
        (f := fun c : Customer =>
          if c.id == idB then { c with deletedAt := some nowB } else c) htmem
      simpa [htid, hNeB] using himg
    · intro cu hcu hne
      show cu ∈ dbB.customers.map
        (fun c => if c.id == idB then { c with deletedAt := some nowB } else c)
      have himg := List.mem_map_of_mem
        (f := fun c : Customer =>
          if c.id == idB then { c with deletedAt := some nowB } else c) hcu
      simpa [hne] using himg

/-- C5 witness: reassigning the customer of company 1 to company 2 re-points
customer 10, soft-deletes company 1 at time 6, keeps company 2 active;
reassigning the lead of customer 10 to customer 11 in `c5DbCu` behaves
alike. -/
theorem reassignment_witness :
    (deleteCompany c5User 1 (some "true") (some 2) (fun _ => false) 6 c5Db).1
      = DeleteCompanyOutcome.ok
          "Company deleted successfully. 1 customers reassigned to company ID 2"
    ∧ ({ c5Customer10 with companyId := 2 })
        ∈ (deleteCompany c5User 1 (some "true") (some 2) (fun _ => false) 6
            c5Db).2.customers
    ∧ ({ c5Company1 with deletedAt := some 6 })
        ∈ (deleteCompany c5User 1 (some "true") (some 2) (fun _ => false) 6
            c5Db).2.companies
    ∧ c5Company2
        ∈ (deleteCompany c5User 1 (some "true") (some 2) (fun _ => false) 6
            c5Db).2.companies
    ∧ (deleteCompany c5User 1 (some "true") (some 2) (fun _ => false) 6
        c5Db).2.leads = c5Db.leads
    ∧ ({ c5Lead100 with customerId := 11 })
        ∈ (deleteCustomer c5User 10 (some "true") (some 11) (fun _ => false) 6
            c5DbCu).2.leads
    ∧ ({ c5Customer10 with deletedAt := some 6 })
        ∈ (deleteCustomer c5User 10 (some "true") (some 11) (fun _ => false) 6
            c5DbCu).2.customers
    ∧ c5Customer11
        ∈ (deleteCustomer c5User 10 (some "true") (some 11) (fun _ => false) 6
            c5DbCu).2.customers := by
  have h := reassignment_moves_dependents_soft_deletes_parent c5User c5User
    1 10 2 11 1 1 (fun _ => false) (fun _ => false) 6 6 c5Db c5DbCu
    c5Company1 c5Company2 c5Customer10 c5Customer11
    (by rfl) (by rfl) (by rfl) (by decide) (by rfl) (by decide)
    (fun i => rfl)
    (by rfl) (by rfl) (by rfl) (by decide) (by rfl) (by decide)
    (fun i => rfl)
  obtain ⟨⟨a1, a2, a3, a4, a5, a6, a7, a8⟩, b1, b2, b3, b4, b5, b6, b7, b8⟩
    := h
  refine ⟨a1, ?_, a4, a5, a8, ?_, b4, b5⟩
  · exact a2 c5Customer10 (by simp [c5Db, c5Customer10]) rfl rfl
  · exact b2 c5Lead100 (by simp [c5DbCu, c5Lead100]) rfl rfl

end DigiCrm
